import Mathlib

/-!
Verification of the dimensional-analysis quantity library (src/src/lib.rs).

The library attaches a compile-time dimension descriptor (struct Unit:
signed integer exponents for length, mass, time) to a floating-point
magnitude (struct Quantity). Descriptor exponents are embedded as
unbounded integers; the host i64 range of the exponents is modeled
separately by checked variants. The f64 magnitude is embedded as an
abstract carrier type equipped with the arithmetic operations the
library delegates to; each quantity operation applies the corresponding
carrier operation, exactly as the source applies the f64 operation.
Concrete examples instantiate the carrier at the rationals, on which the
specific magnitudes involved (small integers) behave exactly as their
f64 counterparts do.
-/

namespace P3dSi

/-- Dimension descriptor, from src/src/lib.rs struct Unit: signed integer
exponents over the base dimensions length, mass, time. -/
structure Unit where
  length : Int
  mass : Int
  time : Int
deriving DecidableEq

namespace Unit

/-- Rust Unit::add: componentwise sum of exponents. -/
def add (s rhs : Unit) : Unit :=
  ⟨s.length + rhs.length, s.mass + rhs.mass, s.time + rhs.time⟩

/-- Rust Unit::sub: componentwise difference of exponents. -/
def sub (s rhs : Unit) : Unit :=
  ⟨s.length - rhs.length, s.mass - rhs.mass, s.time - rhs.time⟩

/-- Rust Unit::neg: componentwise sign flip. -/
def neg (s : Unit) : Unit :=
  ⟨-s.length, -s.mass, -s.time⟩

end Unit

/-- Smallest value of the host i64 type carrying each exponent. -/
def i64Min : Int := -(2 ^ 63)

/-- Largest value of the host i64 type carrying each exponent. -/
def i64Max : Int := 2 ^ 63 - 1

/-- Host i64 addition as evaluated at compile time: the exact sum when it
stays within the i64 range, an evaluation error (none) on overflow. -/
def i64Add (a b : Int) : Option Int :=
  if i64Min ≤ a + b ∧ a + b ≤ i64Max then some (a + b) else none

/-- Host i64 subtraction as evaluated at compile time. -/
def i64Sub (a b : Int) : Option Int :=
  if i64Min ≤ a - b ∧ a - b ≤ i64Max then some (a - b) else none

/-- Host i64 negation as evaluated at compile time. -/
def i64Neg (a : Int) : Option Int :=
  if i64Min ≤ -a ∧ -a ≤ i64Max then some (-a) else none

/-- All three exponents of a descriptor lie within the host i64 range. -/
def Unit.inRange (u : Unit) : Prop :=
  i64Min ≤ u.length ∧ u.length ≤ i64Max ∧ i64Min ≤ u.mass ∧ u.mass ≤ i64Max ∧
    i64Min ≤ u.time ∧ u.time ≤ i64Max

instance (u : Unit) : Decidable u.inRange := by
  unfold Unit.inRange; infer_instance

/-- Rust Unit::add as the host evaluates it on i64 exponents: each
componentwise sum is an i64 addition, failing on overflow. -/
def Unit.addChecked (s rhs : Unit) : Option Unit := do
  let l ← i64Add s.length rhs.length
  let m ← i64Add s.mass rhs.mass
  let t ← i64Add s.time rhs.time
  pure ⟨l, m, t⟩

/-- Rust Unit::sub as the host evaluates it on i64 exponents. -/
def Unit.subChecked (s rhs : Unit) : Option Unit := do
  let l ← i64Sub s.length rhs.length
  let m ← i64Sub s.mass rhs.mass
  let t ← i64Sub s.time rhs.time
  pure ⟨l, m, t⟩

/-- Rust Unit::neg as the host evaluates it on i64 exponents. -/
def Unit.negChecked (s : Unit) : Option Unit := do
  let l ← i64Neg s.length
  let m ← i64Neg s.mass
  let t ← i64Neg s.time
  pure ⟨l, m, t⟩

/-- Rust struct Quantity, parameterized by a const Unit descriptor and
holding one magnitude. The f64 magnitude type is embedded as the abstract
carrier α. -/
structure Quantity (α : Type) (u : Unit) where
  val : α
deriving DecidableEq

/-- Rust impl From of f64 for Quantity: tags a raw magnitude with the
descriptor the call site demands. -/
def Quantity.fromRaw {α : Type} {u : Unit} (x : α) : Quantity α u := ⟨x⟩

/-- Rust impl Add for Quantity: both operands share one descriptor u, the
result keeps u and sums the magnitudes. -/
def Quantity.add {α : Type} [Add α] {u : Unit} (s rhs : Quantity α u) : Quantity α u :=
  ⟨s.val + rhs.val⟩

/-- Rust impl Sub for Quantity: same-descriptor difference. -/
def Quantity.sub {α : Type} [Sub α] {u : Unit} (s rhs : Quantity α u) : Quantity α u :=
  ⟨s.val - rhs.val⟩

/-- Rust impl AddAssign: the state of the left operand after executing
self.0 += rhs.0 (the magnitude is replaced by the sum). -/
def Quantity.addAssign {α : Type} [Add α] {u : Unit} (s rhs : Quantity α u) : Quantity α u :=
  ⟨s.val + rhs.val⟩

/-- Rust impl SubAssign: the state of the left operand after executing
self.0 -= rhs.0. -/
def Quantity.subAssign {α : Type} [Sub α] {u : Unit} (s rhs : Quantity α u) : Quantity α u :=
  ⟨s.val - rhs.val⟩

/-- Rust impl Neg for Quantity: magnitude sign flip, descriptor kept. -/
def Quantity.neg {α : Type} [Neg α] {u : Unit} (s : Quantity α u) : Quantity α u :=
  ⟨-s.val⟩

/-- Rust impl Mul: operands at any two descriptors, result at their
componentwise sum, magnitude product. -/
def Quantity.mul {α : Type} [Mul α] {u1 u2 : Unit} (s : Quantity α u1) (rhs : Quantity α u2) :
    Quantity α (u1.add u2) :=
  ⟨s.val * rhs.val⟩

/-- Rust impl Div: operands at any two descriptors, result at their
componentwise difference, magnitude quotient. -/
def Quantity.div {α : Type} [Div α] {u1 u2 : Unit} (s : Quantity α u1) (rhs : Quantity α u2) :
    Quantity α (u1.sub u2) :=
  ⟨s.val / rhs.val⟩

/-- Rust impl Div of Quantity for f64: a plain scalar divided by a
quantity, result at the negated descriptor. -/
def Quantity.scalarDiv {α : Type} [Div α] {u : Unit} (s : α) (rhs : Quantity α u) :
    Quantity α u.neg :=
  ⟨s / rhs.val⟩

/-- Descriptor of the Dimensionless alias. -/
def dimensionlessU : Unit := ⟨0, 0, 0⟩

/-- Descriptor of the Length alias. -/
def lengthU : Unit := ⟨1, 0, 0⟩

/-- Descriptor of the Mass alias. -/
def massU : Unit := ⟨0, 1, 0⟩

/-- Descriptor of the Time alias. -/
def timeU : Unit := ⟨0, 0, 1⟩

/-- Descriptor of the Area alias. -/
def areaU : Unit := ⟨2, 0, 0⟩

/-- Descriptor of the Volume alias. -/
def volumeU : Unit := ⟨3, 0, 0⟩

/-- Descriptor of the Velocity alias. -/
def velocityU : Unit := ⟨1, 0, -1⟩

/-- Descriptor of the Acceleration alias. -/
def accelerationU : Unit := ⟨1, 0, -2⟩

/-- Descriptor of the Force alias. -/
def forceU : Unit := ⟨1, 1, -2⟩

/-- Descriptor of the Frequency alias. -/
def frequencyU : Unit := ⟨0, 0, -1⟩

/-- Descriptor of the Pressure alias. -/
def pressureU : Unit := ⟨-1, 1, -2⟩

/-- Descriptor of the Energy alias. -/
def energyU : Unit := ⟨2, 1, -2⟩

/-- Descriptor of the Power alias. -/
def powerU : Unit := ⟨2, 1, -3⟩

/-- Alias Dimensionless, instantiated by the quantity macro. -/
abbrev Dimensionless (α : Type) : Type := Quantity α dimensionlessU

/-- Alias Length. -/
abbrev Length (α : Type) : Type := Quantity α lengthU

/-- Alias Mass. -/
abbrev Mass (α : Type) : Type := Quantity α massU

/-- Alias Time. -/
abbrev Time (α : Type) : Type := Quantity α timeU

/-- Alias Area. -/
abbrev Area (α : Type) : Type := Quantity α areaU

/-- Alias Volume. -/
abbrev Volume (α : Type) : Type := Quantity α volumeU

/-- Alias Velocity. -/
abbrev Velocity (α : Type) : Type := Quantity α velocityU

/-- Alias Acceleration. -/
abbrev Acceleration (α : Type) : Type := Quantity α accelerationU

/-- Alias Force. -/
abbrev Force (α : Type) : Type := Quantity α forceU

/-- Alias Frequency. -/
abbrev Frequency (α : Type) : Type := Quantity α frequencyU

/-- Alias Pressure. -/
abbrev Pressure (α : Type) : Type := Quantity α pressureU

/-- Alias Energy. -/
abbrev Energy (α : Type) : Type := Quantity α energyU

/-- Alias Power. -/
abbrev Power (α : Type) : Type := Quantity α powerU

/-- Rust Quantity::format_units: the magnitude rendered by the host
one-fixed-decimal float formatter (abstracted as render), followed by the
three exponents over the fixed symbols m, kg, s. -/
def Quantity.format_units {α : Type} {u : Unit} (render : α → String)
    (s : Quantity α u) : String :=
  render s.val ++ " m^" ++ toString u.length ++ " kg^" ++ toString u.mass ++
    " s^" ++ toString u.time

/-- Host one-fixed-decimal rendering at rational magnitudes: nearest
multiple of one tenth, written with exactly one digit after the point. -/
def renderOneDec (x : ℚ) : String :=
  let n : Int := round (10 * x)
  (if n < 0 then "-" else "") ++ toString (n.natAbs / 10) ++ "." ++ toString (n.natAbs % 10)

/-- Expressions formed from the operator calls the library offers: raw
magnitudes tagged with a descriptor (From of f64), the same-descriptor
operators add and sub, neg, the composing operators mul and div, and a
plain scalar divided by a quantity (sdiv). -/
inductive QExpr (α : Type) where
  | lit (u : Unit) (x : α)
  | add (e1 e2 : QExpr α)
  | sub (e1 e2 : QExpr α)
  | neg (e : QExpr α)
  | mul (e1 e2 : QExpr α)
  | div (e1 e2 : QExpr α)
  | sdiv (s : α) (e : QExpr α)

/-- Static descriptor inference, mirroring the trait impl signatures of
the source: Add and Sub are implemented only between two quantities at
one common descriptor, Mul and Div compose any two descriptors by
Unit::add and Unit::sub, and dividing a scalar by a quantity negates the
descriptor. The result none is a build failure: it is computed from the
descriptors alone, before and independent of any magnitude evaluation. -/
def inferUnit {α : Type} : QExpr α → Option Unit
  | QExpr.lit u _ => some u
  | QExpr.add e1 e2 => do
      let u1 ← inferUnit e1
      let u2 ← inferUnit e2
      if u1 = u2 then pure u1 else none
  | QExpr.sub e1 e2 => do
      let u1 ← inferUnit e1
      let u2 ← inferUnit e2
      if u1 = u2 then pure u1 else none
  | QExpr.neg e => inferUnit e
  | QExpr.mul e1 e2 => do
      let u1 ← inferUnit e1
      let u2 ← inferUnit e2
      pure (u1.add u2)
  | QExpr.div e1 e2 => do
      let u1 ← inferUnit e1
      let u2 ← inferUnit e2
      pure (u1.sub u2)
  | QExpr.sdiv _ e => do
      let u ← inferUnit e
      pure (Unit.neg u)

/-- Runtime magnitude evaluation: a total function that never consults
descriptors and has no error path, mirroring that every operator body in
the source only combines the wrapped f64 magnitudes. -/
def evalMag {α : Type} [Add α] [Sub α] [Neg α] [Mul α] [Div α] : QExpr α → α
  | QExpr.lit _ x => x
  | QExpr.add e1 e2 => evalMag e1 + evalMag e2
  | QExpr.sub e1 e2 => evalMag e1 - evalMag e2
  | QExpr.neg e => -(evalMag e)
  | QExpr.mul e1 e2 => evalMag e1 * evalMag e2
  | QExpr.div e1 e2 => evalMag e1 / evalMag e2
  | QExpr.sdiv s e => s / evalMag e

/-- Claim C1: multiplying any two quantities yields the descriptor
Unit::add of the operand descriptors (componentwise exponent sum) and the
magnitude product, with no descriptor equality required; in particular a
unit Length times a unit Length is a unit Area, and times a unit Length
again is a unit Volume. -/
theorem mul_composes_descriptors :
    (∀ (α : Type) [Mul α] (u1 u2 : Unit) (x y : α),
        Quantity.mul (⟨x⟩ : Quantity α u1) (⟨y⟩ : Quantity α u2) =
          (⟨x * y⟩ : Quantity α (u1.add u2)) ∧
        u1.add u2 = ⟨u1.length + u2.length, u1.mass + u2.mass, u1.time + u2.time⟩) ∧
    Quantity.mul (Quantity.fromRaw 1 : Length ℚ) (Quantity.fromRaw 1 : Length ℚ) =
      (Quantity.fromRaw 1 : Area ℚ) ∧
    Quantity.mul
        (Quantity.mul (Quantity.fromRaw 1 : Length ℚ) (Quantity.fromRaw 1 : Length ℚ))
        (Quantity.fromRaw 1 : Length ℚ) =
      (Quantity.fromRaw 1 : Volume ℚ) := by
  refine ⟨fun α _ u1 u2 x y => ⟨rfl, rfl⟩, ?_, ?_⟩ <;>
    simp [Quantity.mul, Quantity.fromRaw]

/-- Claim C2: dividing two quantities yields the descriptor Unit::sub of
the operand descriptors and the magnitude quotient, and dividing a plain
scalar by a quantity yields the negated descriptor; both are defined for
every divisor magnitude including zero, with no check and no error path,
the result magnitude being whatever the host division returns. A unit
Length over a unit Length is a unit Dimensionless, and one over a unit
Time is a unit Frequency. -/
theorem div_composes_descriptors :
    (∀ (α : Type) [Div α] (u1 u2 : Unit) (x y : α),
        Quantity.div (⟨x⟩ : Quantity α u1) (⟨y⟩ : Quantity α u2) =
          (⟨x / y⟩ : Quantity α (u1.sub u2)) ∧
        u1.sub u2 = ⟨u1.length - u2.length, u1.mass - u2.mass, u1.time - u2.time⟩) ∧
    (∀ (α : Type) [Div α] (u : Unit) (s y : α),
        Quantity.scalarDiv s (⟨y⟩ : Quantity α u) = (⟨s / y⟩ : Quantity α u.neg) ∧
        u.neg = ⟨-u.length, -u.mass, -u.time⟩) ∧
    Quantity.div (Quantity.fromRaw 1 : Length ℚ) (Quantity.fromRaw 1 : Length ℚ) =
      (Quantity.fromRaw 1 : Dimensionless ℚ) ∧
    Quantity.scalarDiv (1 : ℚ) (Quantity.fromRaw 1 : Time ℚ) =
      (Quantity.fromRaw 1 : Frequency ℚ) := by
  refine ⟨fun α _ u1 u2 x y => ⟨rfl, rfl⟩, fun α _ u s y => ⟨rfl, rfl⟩, ?_, ?_⟩ <;>
    simp [Quantity.div, Quantity.scalarDiv, Quantity.fromRaw]

/-- Claim C3: addition, subtraction and negation act only between
quantities at one common descriptor u (the operand types share u by
construction), keep that descriptor in the result, and respectively sum,
subtract and flip the magnitudes. -/
theorem add_sub_neg_same_descriptor :
    ∀ (α : Type) [Add α] [Sub α] [Neg α] (u : Unit) (x y : α),
      Quantity.add (⟨x⟩ : Quantity α u) ⟨y⟩ = (⟨x + y⟩ : Quantity α u) ∧
      Quantity.sub (⟨x⟩ : Quantity α u) ⟨y⟩ = (⟨x - y⟩ : Quantity α u) ∧
      Quantity.neg (⟨x⟩ : Quantity α u) = (⟨-x⟩ : Quantity α u) := by
  intros; exact ⟨rfl, rfl, rfl⟩

/-- Claim C5: the compound assignment operators leave the left operand in
exactly the state the non-assigning operators would return, at the same
descriptor, touching only the magnitude. -/
theorem assign_matches_binary :
    ∀ (α : Type) [Add α] [Sub α] (u : Unit) (a b : Quantity α u),
      Quantity.addAssign a b = Quantity.add a b ∧
      Quantity.subAssign a b = Quantity.sub a b := by
  intros; exact ⟨rfl, rfl⟩

/-- Claim C4: an addition or subtraction of two quantities at unequal
descriptors is rejected by the static descriptor inference (the result
none, a build failure computed from descriptors alone, before any
magnitude exists); adding a Length to a Mass is such a rejection. This
same-descriptor requirement is the only error condition: multiplication,
division and scalar division always infer a descriptor, and so do add
and sub once the descriptors agree, while runtime magnitude evaluation
(evalMag) is a total function with no error path. -/
theorem mismatched_add_rejected_statically :
    (∀ x y : ℚ,
        inferUnit (QExpr.add (QExpr.lit lengthU x) (QExpr.lit massU y)) = none ∧
        inferUnit (QExpr.sub (QExpr.lit lengthU x) (QExpr.lit massU y)) = none) ∧
    (∀ (α : Type) (e1 e2 : QExpr α) (u1 u2 : Unit),
        inferUnit e1 = some u1 → inferUnit e2 = some u2 → u1 ≠ u2 →
        inferUnit (QExpr.add e1 e2) = none ∧ inferUnit (QExpr.sub e1 e2) = none) ∧
    (∀ (α : Type) (e1 e2 : QExpr α) (u1 u2 : Unit),
        inferUnit e1 = some u1 → inferUnit e2 = some u2 →
        inferUnit (QExpr.mul e1 e2) = some (u1.add u2) ∧
        inferUnit (QExpr.div e1 e2) = some (u1.sub u2) ∧
        (∀ s : α, inferUnit (QExpr.sdiv s e1) = some u1.neg) ∧
        (u1 = u2 →
          inferUnit (QExpr.add e1 e2) = some u1 ∧
          inferUnit (QExpr.sub e1 e2) = some u1)) := by
  refine ⟨?_, ?_, ?_⟩
  · intro x y
    constructor <;> simp [inferUnit, lengthU, massU]
  · intro α e1 e2 u1 u2 h1 h2 hne
    constructor <;> simp [inferUnit, h1, h2, hne]
  · intro α e1 e2 u1 u2 h1 h2
    refine ⟨by simp [inferUnit, h1, h2], by simp [inferUnit, h1, h2],
      fun s => by simp [inferUnit, h1], fun he => ?_⟩
    subst he
    constructor <;> simp [inferUnit, h1, h2]

/-- Witness for claim C4 at concrete inputs: a unit Length plus a unit
Mass and a unit Length minus a unit Mass fail descriptor inference,
while their product infers the composed descriptor. -/
theorem mismatched_add_rejected_statically_witness :
    inferUnit (QExpr.add (QExpr.lit lengthU (1 : ℚ)) (QExpr.lit massU 1)) = none ∧
    inferUnit (QExpr.sub (QExpr.lit lengthU (1 : ℚ)) (QExpr.lit massU 1)) = none ∧
    inferUnit (QExpr.mul (QExpr.lit lengthU (1 : ℚ)) (QExpr.lit massU 1)) =
      some (Unit.add lengthU massU) :=
  ⟨(mismatched_add_rejected_statically.1 1 1).1,
   (mismatched_add_rejected_statically.2.1 ℚ (QExpr.lit lengthU 1) (QExpr.lit massU 1)
      lengthU massU rfl rfl (by decide)).2,
   (mismatched_add_rejected_statically.2.2 ℚ (QExpr.lit lengthU 1) (QExpr.lit massU 1)
      lengthU massU rfl rfl).1⟩

/-- Claim C6: format_units renders the magnitude through the host
one-fixed-decimal formatter and appends the three exponents over the
fixed symbols m, kg, s; a unit Length renders to exactly
the string given in the statement below. -/
theorem format_units_layout :
    (∀ (α : Type) (u : Unit) (render : α → String) (v : α),
        Quantity.format_units render (⟨v⟩ : Quantity α u) =
          render v ++ " m^" ++ toString u.length ++ " kg^" ++ toString u.mass ++
            " s^" ++ toString u.time) ∧
    Quantity.format_units renderOneDec (Quantity.fromRaw 1 : Length ℚ) =
      "1.0 m^1 kg^0 s^0" := by
  refine ⟨fun α u render v => rfl, ?_⟩
  unfold Quantity.format_units Quantity.fromRaw renderOneDec lengthU
  norm_num
  rfl

/-- Claim C7: the thirteen named aliases are exactly the instantiations
of Quantity at the stated exponent triples (length, mass, time). -/
theorem alias_descriptor_table :
    (dimensionlessU = ⟨0, 0, 0⟩ ∧ lengthU = ⟨1, 0, 0⟩ ∧ massU = ⟨0, 1, 0⟩ ∧
      timeU = ⟨0, 0, 1⟩ ∧ areaU = ⟨2, 0, 0⟩ ∧ volumeU = ⟨3, 0, 0⟩ ∧
      velocityU = ⟨1, 0, -1⟩ ∧ accelerationU = ⟨1, 0, -2⟩ ∧ forceU = ⟨1, 1, -2⟩ ∧
      frequencyU = ⟨0, 0, -1⟩ ∧ pressureU = ⟨-1, 1, -2⟩ ∧ energyU = ⟨2, 1, -2⟩ ∧
      powerU = ⟨2, 1, -3⟩) ∧
    (∀ α : Type,
      Dimensionless α = Quantity α ⟨0, 0, 0⟩ ∧ Length α = Quantity α ⟨1, 0, 0⟩ ∧
      Mass α = Quantity α ⟨0, 1, 0⟩ ∧ Time α = Quantity α ⟨0, 0, 1⟩ ∧
      Area α = Quantity α ⟨2, 0, 0⟩ ∧ Volume α = Quantity α ⟨3, 0, 0⟩ ∧
      Velocity α = Quantity α ⟨1, 0, -1⟩ ∧ Acceleration α = Quantity α ⟨1, 0, -2⟩ ∧
      Force α = Quantity α ⟨1, 1, -2⟩ ∧ Frequency α = Quantity α ⟨0, 0, -1⟩ ∧
      Pressure α = Quantity α ⟨-1, 1, -2⟩ ∧ Energy α = Quantity α ⟨2, 1, -2⟩ ∧
      Power α = Quantity α ⟨2, 1, -3⟩) :=
  ⟨by decide,
   fun _ => ⟨rfl, rfl, rfl, rfl, rfl, rfl, rfl, rfl, rfl, rfl, rfl, rfl, rfl⟩⟩

/-- Helper: i64 addition succeeds exactly when the sum stays in range. -/
theorem i64Add_in_range (a b : Int) (h1 : i64Min ≤ a + b) (h2 : a + b ≤ i64Max) :
    i64Add a b = some (a + b) := by
  simp [i64Add, h1, h2]

/-- Helper: i64 subtraction succeeds when the difference stays in range. -/
theorem i64Sub_in_range (a b : Int) (h1 : i64Min ≤ a - b) (h2 : a - b ≤ i64Max) :
    i64Sub a b = some (a - b) := by
  simp [i64Sub, h1, h2]

/-- Helper: i64 negation succeeds when the negation stays in range. -/
theorem i64Neg_in_range (a : Int) (h1 : i64Min ≤ -a) (h2 : -a ≤ i64Max) :
    i64Neg a = some (-a) := by
  simp [i64Neg, h1, h2]

/-- Counterexample to claim C8 as stated: at i64 extremes the descriptor
operations do not yield the componentwise result — the compile-time i64
evaluation of Unit::add overflows at length i64Max plus one, Unit::sub at
i64Min minus one, and Unit::neg at i64Min. -/
theorem unit_ops_overflow_at_i64_extremes :
    Unit.addChecked ⟨i64Max, 0, 0⟩ ⟨1, 0, 0⟩ = none ∧
    Unit.subChecked ⟨i64Min, 0, 0⟩ ⟨1, 0, 0⟩ = none ∧
    Unit.negChecked ⟨i64Min, 0, 0⟩ = none ∧
    ¬Unit.addChecked ⟨i64Max, 0, 0⟩ ⟨1, 0, 0⟩ =
        some (Unit.add ⟨i64Max, 0, 0⟩ ⟨1, 0, 0⟩) := by
  refine ⟨?_, ?_, ?_, ?_⟩ <;> decide

/-- Claim C8 as amended: Unit::add, Unit::sub and Unit::neg are pure and
yield the componentwise sum, difference and sign flip for every exponent
input whose componentwise results stay within the i64 range (hence for
all mathematical integers); outside that range the compile-time i64
evaluation fails with an overflow error. -/
theorem unit_ops_componentwise_in_range (s rhs : Unit)
    (ha : (s.add rhs).inRange) (hs : (s.sub rhs).inRange) (hn : s.neg.inRange) :
    Unit.addChecked s rhs = some (s.add rhs) ∧
    Unit.subChecked s rhs = some (s.sub rhs) ∧
    Unit.negChecked s = some s.neg := by
  simp only [Unit.inRange, Unit.add, Unit.sub, Unit.neg] at ha hs hn
  obtain ⟨a1, a2, a3, a4, a5, a6⟩ := ha
  obtain ⟨b1, b2, b3, b4, b5, b6⟩ := hs
  obtain ⟨c1, c2, c3, c4, c5, c6⟩ := hn
  refine ⟨?_, ?_, ?_⟩
  · simp [Unit.addChecked, Unit.add, i64Add_in_range _ _ a1 a2,
      i64Add_in_range _ _ a3 a4, i64Add_in_range _ _ a5 a6]
  · simp [Unit.subChecked, Unit.sub, i64Sub_in_range _ _ b1 b2,
      i64Sub_in_range _ _ b3 b4, i64Sub_in_range _ _ b5 b6]
  · simp [Unit.negChecked, Unit.neg, i64Neg_in_range _ c1 c2,
      i64Neg_in_range _ c3 c4, i64Neg_in_range _ c5 c6]

/-- Witness for the amended claim C8 at concrete in-range descriptors. -/
theorem unit_ops_componentwise_in_range_witness :
    Unit.addChecked ⟨1, 0, 0⟩ ⟨0, 1, -2⟩ = some (Unit.add ⟨1, 0, 0⟩ ⟨0, 1, -2⟩) ∧
    Unit.subChecked ⟨1, 0, 0⟩ ⟨0, 1, -2⟩ = some (Unit.sub ⟨1, 0, 0⟩ ⟨0, 1, -2⟩) ∧
    Unit.negChecked ⟨1, 0, 0⟩ = some (Unit.neg ⟨1, 0, 0⟩) :=
  unit_ops_componentwise_in_range ⟨1, 0, 0⟩ ⟨0, 1, -2⟩
    (by decide) (by decide) (by decide)

end P3dSi
